import Mathlib

/-!
Verification of the subscription-cancellation flow.

This file shallowly embeds the two logic-bearing parts of the repository:

* the flow state machine of `src/components/cancellation-flow.tsx`
  (step type, flow state, validation predicates, the per-step handlers,
  the back-navigation map, and the UI-level dispatch in which a handler
  only fires when its control is rendered for the current step and not
  disabled by its guard), and
* the backend route of `src/app/api/cancellation/route.ts`
  (`getOrAssignVariant` and the `POST` handler), over an explicit record
  store standing for the supabase tables, with fault flags standing for
  persistence errors (the supabase client reports errors in its result
  value; it does not throw, and this code never reads the error field).

Strings model the JS strings involved; JS truthiness of a nullable string
is "non-null and non-empty".  Timestamp columns (`updated_at`,
`created_at`) carry no claim-relevant information and are omitted from
the record shapes.
-/

namespace CancelFlow

/-- The closed set of wizard steps (`FlowStep` in cancellation-flow.tsx). -/
inductive FlowStep where
  | jobQuestion
  | survey
  | feedback
  | congratulations
  | visaSupport
  | visaYes
  | visaNo
  | success
  | successAlt
  | retentionOffer
  | retentionAccepted
  | retentionSurvey
  | retentionReason
  | retentionPrice
  | retentionPlatform
  | retentionJobs
  | retentionMove
  | retentionOther
  | retentionFinal
deriving DecidableEq, Repr

/-- `SurveyData` in cancellation-flow.tsx; `Option` models nullable fields. -/
structure SurveyData where
  foundJobWithMM : Option Bool
  rolesApplied : Option String
  companiesEmailed : Option String
  companiesInterviewed : Option String
deriving DecidableEq, Repr

/-- `RetentionData` in cancellation-flow.tsx. -/
structure RetentionData where
  rolesApplied : Option String
  companiesEmailed : Option String
  companiesInterviewed : Option String
  cancellationReason : Option String
  maxPrice : String
  reasonFeedback : String
deriving DecidableEq, Repr

/-- `FlowState` in cancellation-flow.tsx. -/
structure FlowState where
  step : FlowStep
  hasJob : Option Bool
  surveyData : SurveyData
  feedback : String
  hasLawyer : Option Bool
  visaType : String
  completedSteps : Nat
  retentionData : RetentionData
deriving DecidableEq, Repr

/-- One call to `submitCancellation(accepted, reason)`: the payload of a
Submission Gateway report. -/
structure Submission where
  accepted : Bool
  reason : String
deriving DecidableEq, Repr

/-- The `initialState` value of the component. -/
def initialState : FlowState :=
  { step := .jobQuestion
    hasJob := none
    surveyData :=
      { foundJobWithMM := none
        rolesApplied := none
        companiesEmailed := none
        companiesInterviewed := none }
    feedback := ""
    hasLawyer := none
    visaType := ""
    completedSteps := 0
    retentionData :=
      { rolesApplied := none
        companiesEmailed := none
        companiesInterviewed := none
        cancellationReason := none
        maxPrice := ""
        reasonFeedback := "" } }

/-- `MIN_FEEDBACK_LENGTH` constant. -/
def MIN_FEEDBACK_LENGTH : Nat := 25

/-- JS truthiness of a nullable string: non-null and non-empty. -/
def optStrTruthy : Option String → Bool
  | none => false
  | some s => s != ""

/-- JS `String.prototype.trim()`: strip leading and trailing whitespace. -/
def jsTrim (s : String) : String :=
  ⟨((s.data.dropWhile Char.isWhitespace).reverse.dropWhile
      Char.isWhitespace).reverse⟩

/-- `isSurveyValid`: all four survey fields set (string fields truthy). -/
def isSurveyValid (s : FlowState) : Bool :=
  s.surveyData.foundJobWithMM.isSome
    && optStrTruthy s.surveyData.rolesApplied
    && optStrTruthy s.surveyData.companiesEmailed
    && optStrTruthy s.surveyData.companiesInterviewed

/-- `isRetentionSurveyValid`: three retention-survey fields truthy. -/
def isRetentionSurveyValid (s : FlowState) : Bool :=
  optStrTruthy s.retentionData.rolesApplied
    && optStrTruthy s.retentionData.companiesEmailed
    && optStrTruthy s.retentionData.companiesInterviewed

/-- `isFeedbackValid`: feedback length at least `MIN_FEEDBACK_LENGTH`. -/
def isFeedbackValid (s : FlowState) : Bool :=
  MIN_FEEDBACK_LENGTH ≤ s.feedback.length

/-- `isReasonFeedbackValid`: reason-feedback length at least
`MIN_FEEDBACK_LENGTH`. -/
def isReasonFeedbackValid (s : FlowState) : Bool :=
  MIN_FEEDBACK_LENGTH ≤ s.retentionData.reasonFeedback.length

/-- `handleJobResponse(hasJob)`. -/
def handleJobResponse (hasJob : Bool) (s : FlowState) : FlowState :=
  { s with
    hasJob := some hasJob
    step := if hasJob then .survey else .retentionOffer }

/-- `handleSurveySubmit`. -/
def handleSurveySubmit (s : FlowState) : FlowState :=
  { s with step := .feedback, completedSteps := 1 }

/-- `handleFeedbackSubmit`. -/
def handleFeedbackSubmit (s : FlowState) : FlowState :=
  { s with step := .congratulations, completedSteps := 2 }

/-- `handleCongratulationsNext`. -/
def handleCongratulationsNext (s : FlowState) : FlowState :=
  { s with step := .visaSupport, completedSteps := 3 }

/-- `handleVisaSupportResponse(hasLawyer)`. -/
def handleVisaSupportResponse (hasLawyer : Bool) (s : FlowState) : FlowState :=
  { s with
    hasLawyer := some hasLawyer
    step := if hasLawyer then .visaYes else .visaNo }

/-- `handleVisaDetailsSubmit`: dispatches
`submitCancellation(false, "Completed visa support flow")` and moves to
`success` when `hasLawyer` is truthy (`some true`), else `success-alt`. -/
def handleVisaDetailsSubmit (s : FlowState) : FlowState × List Submission :=
  ({ s with
     step := match s.hasLawyer with
       | some true => .success
       | _ => .successAlt },
   [⟨false, "Completed visa support flow"⟩])

/-- `handleRetentionOffer(accepted)`: on accept, dispatches
`submitCancellation(true, "Accepted retention offer")` and moves to
`retention-accepted`; on decline moves to `retention-survey`. -/
def handleRetentionOffer (accepted : Bool) (s : FlowState) :
    FlowState × List Submission :=
  ({ s with
     step := if accepted then .retentionAccepted else .retentionSurvey
     completedSteps := if accepted then 0 else 1 },
   if accepted then [⟨true, "Accepted retention offer"⟩] else [])

/-- `handleRetentionSurveySubmit`. -/
def handleRetentionSurveySubmit (s : FlowState) : FlowState :=
  { s with step := .retentionReason, completedSteps := 2 }

/-- The `stepMap` object lookup inside `handleRetentionReasonSubmit`. -/
def stepMapLookup (r : String) : Option FlowStep :=
  if r = "Too expensive" then some .retentionPrice
  else if r = "Platform not helpful" then some .retentionPlatform
  else if r = "Not enough relevant jobs" then some .retentionJobs
  else if r = "Decided not to move" then some .retentionMove
  else if r = "Other" then some .retentionOther
  else none

/-- `handleRetentionReasonSubmit`: routes by `cancellationReason` through
`stepMap` (`reason && stepMap[reason] ? stepMap[reason] : "retention-final"`,
so a null, empty, or unmatched reason falls back to `retention-final`). -/
def handleRetentionReasonSubmit (s : FlowState) : FlowState :=
  let nextStep : FlowStep :=
    match s.retentionData.cancellationReason with
    | some r =>
      if r = "" then .retentionFinal
      else (stepMapLookup r).getD .retentionFinal
    | none => .retentionFinal
  { s with step := nextStep, completedSteps := 3 }

/-- JS template-literal interpolation of a nullable string
(interpolating `null` produces the text "null"). -/
def jsInterp : Option String → String
  | some s => s
  | none => "null"

/-- `handleReasonFeedbackSubmit`: dispatches
`submitCancellation(false, cancellationReason ++ ": " ++ reasonFeedback)`. -/
def handleReasonFeedbackSubmit (s : FlowState) : FlowState × List Submission :=
  ({ s with step := .retentionFinal, completedSteps := 3 },
   [⟨false,
     jsInterp s.retentionData.cancellationReason ++ ": "
       ++ s.retentionData.reasonFeedback⟩])

/-- `handleRetentionPriceSubmit`: dispatches
`submitCancellation(false, "Too expensive - willing to pay: $" ++ maxPrice)`. -/
def handleRetentionPriceSubmit (s : FlowState) : FlowState × List Submission :=
  ({ s with step := .retentionFinal, completedSteps := 3 },
   [⟨false, "Too expensive - willing to pay: $" ++ s.retentionData.maxPrice⟩])

/-- The `backMap` object inside `goBack`. -/
def backMap : FlowStep → Option FlowStep
  | .survey => some .jobQuestion
  | .feedback => some .survey
  | .congratulations => some .feedback
  | .visaSupport => some .congratulations
  | .visaYes => some .visaSupport
  | .visaNo => some .visaSupport
  | .retentionOffer => some .jobQuestion
  | .retentionSurvey => some .retentionOffer
  | .retentionReason => some .retentionSurvey
  | .retentionPrice => some .retentionReason
  | _ => none

/-- `goBack`: follow `backMap` if it has an entry, additionally clearing
`hasLawyer` when the target is `visa-support`; otherwise leave the state
unchanged. -/
def goBack (s : FlowState) : FlowState :=
  match backMap s.step with
  | none => s
  | some p =>
    if p = FlowStep.visaSupport then { s with step := p, hasLawyer := none }
    else { s with step := p }

/-- `showBackButton`: the back button is rendered at every step except
`job-question` and `retention-offer`. -/
def showBackButton (st : FlowStep) : Bool :=
  !(st == .jobQuestion || st == .retentionOffer)

/-- Steps whose screens render a "Get 50% off" button wired to
`handleRetentionOffer(true)` (besides `retention-offer` itself, which
renders both the accept and the decline button). -/
def retentionAcceptSteps : List FlowStep :=
  [.retentionSurvey, .retentionReason, .retentionPrice,
   .retentionPlatform, .retentionJobs, .retentionMove, .retentionOther]

/-- Steps sharing the generic reason-feedback screen. -/
def reasonFeedbackSteps : List FlowStep :=
  [.retentionPlatform, .retentionJobs, .retentionMove, .retentionOther]

/-- User actions, one per interactive control of the component. -/
inductive Action where
  | answerJob (hasJob : Bool)
  | submitSurvey
  | submitFeedback
  | nextCongratulations
  | answerVisa (hasLawyer : Bool)
  | submitVisaDetails
  | accept (accepted : Bool)
  | submitRetentionSurvey
  | submitRetentionReason
  | submitReasonFeedback
  | submitRetentionPrice
  | back
deriving DecidableEq, Repr

/-- The UI-level transition: a handler fires only when its control is
rendered for the current step and not disabled by its guard (the JSX
renders each block under a `flowState.step === ...` test and disables
submit buttons on the validation predicates); otherwise the action is a
no-op.  Returns the next state together with the submissions dispatched. -/
def transition (s : FlowState) (a : Action) : FlowState × List Submission :=
  match a with
  | .answerJob b =>
    if s.step == .jobQuestion then (handleJobResponse b s, []) else (s, [])
  | .submitSurvey =>
    if s.step == .survey && isSurveyValid s then (handleSurveySubmit s, [])
    else (s, [])
  | .submitFeedback =>
    if s.step == .feedback && isFeedbackValid s then (handleFeedbackSubmit s, [])
    else (s, [])
  | .nextCongratulations =>
    if s.step == .congratulations && s.hasLawyer.isSome then
      (handleCongratulationsNext s, [])
    else (s, [])
  | .answerVisa b =>
    if s.step == .visaSupport then (handleVisaSupportResponse b s, [])
    else (s, [])
  | .submitVisaDetails =>
    if (s.step == .visaYes || s.step == .visaNo) && jsTrim s.visaType != "" then
      handleVisaDetailsSubmit s
    else (s, [])
  | .accept b =>
    if s.step == .retentionOffer || (b && retentionAcceptSteps.contains s.step)
    then handleRetentionOffer b s
    else (s, [])
  | .submitRetentionSurvey =>
    if s.step == .retentionSurvey && isRetentionSurveyValid s then
      (handleRetentionSurveySubmit s, [])
    else (s, [])
  | .submitRetentionReason =>
    if s.step == .retentionReason
        && optStrTruthy s.retentionData.cancellationReason then
      (handleRetentionReasonSubmit s, [])
    else (s, [])
  | .submitReasonFeedback =>
    if reasonFeedbackSteps.contains s.step && isReasonFeedbackValid s then
      handleReasonFeedbackSubmit s
    else (s, [])
  | .submitRetentionPrice =>
    if s.step == .retentionPrice && jsTrim s.retentionData.maxPrice != "" then
      handleRetentionPriceSubmit s
    else (s, [])
  | .back =>
    if showBackButton s.step then (goBack s, []) else (s, [])

/-! ## Backend route: `src/app/api/cancellation/route.ts`

The supabase tables are modelled as explicit lists of records; a
`Faults` value injects persistence errors for the two operations used by
`getOrAssignVariant` (the supabase client returns `{data, error}` and
never throws — a failed select yields `data = null`, a failed insert
leaves the table unchanged; the route code never reads `error`). -/

/-- A small JSON value type for the request fields whose runtime type the
handler inspects (`typeof` checks and truthiness). -/
inductive Json where
  | jstr (s : String)
  | jbool (b : Bool)
  | jnum (n : Int)
  | jnull
deriving DecidableEq, Repr

/-- JS truthiness of a possibly-absent JSON value. -/
def jTruthy : Option Json → Bool
  | none => false
  | some (.jstr s) => s != ""
  | some (.jbool b) => b
  | some (.jnum n) => n != 0
  | some .jnull => false

/-- `typeof x === "boolean"`. -/
def isBoolJ : Option Json → Bool
  | some (.jbool _) => true
  | _ => false

/-- `typeof x === "string"`. -/
def isStrJ : Option Json → Bool
  | some (.jstr _) => true
  | _ => false

/-- The boolean payload of a field already known to be a JSON boolean. -/
def boolOfJ : Option Json → Bool
  | some (.jbool b) => b
  | _ => false

/-- A row of the `cancellations` table (the `created_at` timestamp is
omitted; it carries no claim-relevant information). -/
structure CancellationRecord where
  user_id : String
  subscription_id : String
  downsell_variant : Option String
  accepted_downsell : Option Bool
  reason : Option String
deriving DecidableEq, Repr

/-- A row of the `subscriptions` table (`updated_at` omitted). -/
structure Subscription where
  id : String
  status : String
deriving DecidableEq, Repr

/-- The record store: the two supabase tables the route touches. -/
structure Db where
  cancellations : List CancellationRecord
  subscriptions : List Subscription
deriving DecidableEq, Repr

/-- Fault injection for the persistence operations of
`getOrAssignVariant`. -/
structure Faults where
  selectFails : Bool
  insertFails : Bool
deriving DecidableEq, Repr

/-- The `.eq("user_id", u).eq("subscription_id", s)` row filter. -/
def matchRec (u sid : String) (r : CancellationRecord) : Bool :=
  r.user_id == u && r.subscription_id == sid

/-- The `.select(...).eq(...).eq(...).single()` call: `data` is the row
when exactly one row matches and the operation does not fail, else null
(`.single()` errors on zero or several rows, and the code reads only
`data`). -/
def selectSingle (fl : Faults) (db : Db) (u sid : String) :
    Option CancellationRecord :=
  if fl.selectFails then none
  else
    match db.cancellations.filter (matchRec u sid) with
    | [r] => some r
    | _ => none

/-- The truthy chain `data?.downsell_variant` of `getOrAssignVariant`:
the stored variant, when the lookup produced a row whose
`downsell_variant` is a non-empty string. -/
def lookedUpVariant (fl : Faults) (db : Db) (u sid : String) :
    Option String :=
  match selectSingle fl db u sid with
  | some r =>
    match r.downsell_variant with
    | some v => if v = "" then none else some v
    | none => none
  | none => none

/-- `getOrAssignVariant(userId, subscriptionId)`: return the stored
variant if the lookup finds a truthy one; otherwise derive a variant
from the parity of a random byte (`randomByte % 2 === 0 ? "A" : "B"`),
attempt the insert (its result is not inspected), and return the
variant.  The random byte is passed in explicitly. -/
def getOrAssignVariant (fl : Faults) (db : Db) (u sid : String)
    (randomByte : Nat) : String × Db :=
  match lookedUpVariant fl db u sid with
  | some v => (v, db)
  | none =>
    let variant : String := if randomByte % 2 == 0 then "A" else "B"
    let db2 : Db :=
      if fl.insertFails then db
      else
        { db with
          cancellations :=
            db.cancellations ++ [⟨u, sid, some variant, none, none⟩] }
    (variant, db2)

/-- How the `reason` field of the update payload acts on the stored
`reason` column: an absent field is dropped by JSON serialization (column
kept), a JSON string sets it, JSON null clears it, and any other JSON
value mismatches the text column so the whole update is rejected by the
store (only falsy non-strings can reach the update; truthy non-strings
were rejected with 400). -/
inductive ReasonUpdate where
  | keep
  | clear
  | set (s : String)
  | reject
deriving DecidableEq, Repr

/-- Classify the `reason` field of the request body. -/
def reasonUpdateOf : Option Json → ReasonUpdate
  | none => .keep
  | some (.jstr s) => .set s
  | some .jnull => .clear
  | some _ => .reject

/-- Apply a `ReasonUpdate` to a stored reason column. -/
def applyReasonUpdate (ru : ReasonUpdate) (old : Option String) :
    Option String :=
  match ru with
  | .keep => old
  | .clear => none
  | .set s => some s
  | .reject => old

/-- The `update({accepted_downsell, reason}).eq(...).eq(...)` call on the
`cancellations` table: every matching row gets the new values; a
type-mismatched `reason` makes the store reject the whole statement. -/
def updateCancellations (db : Db) (u sid : String) (acc : Bool)
    (reasonJ : Option Json) : Db :=
  match reasonUpdateOf reasonJ with
  | .reject => db
  | ru =>
    { db with
      cancellations :=
        db.cancellations.map fun r =>
          if matchRec u sid r then
            { r with
              accepted_downsell := some acc
              reason := applyReasonUpdate ru r.reason }
          else r }

/-- The `update({status: "pending_cancellation", ...}).eq("id", sid)` call
on the `subscriptions` table. -/
def updateSubscriptionStatus (db : Db) (sid : String) : Db :=
  { db with
    subscriptions :=
      db.subscriptions.map fun sub =>
        if sub.id == sid then { sub with status := "pending_cancellation" }
        else sub }

/-- The parsed request body.  The identity pair is modelled as optional
strings (the spec fixes both as opaque string identifiers); the remaining
fields keep their JSON value so the handler's `typeof` checks and
truthiness tests are meaningful. -/
structure ReqBody where
  user_id : Option String
  subscription_id : Option String
  get_variant : Option Json
  accepted_downsell : Option Json
  reason : Option Json
deriving DecidableEq, Repr

/-- The response produced by the handler (HTTP status plus JSON body). -/
structure ApiResponse where
  status : Nat
  success : Bool
  variant : Option String
  message : Option String
deriving DecidableEq, Repr

/-- The `POST` handler of route.ts.  `body = none` models a request whose
JSON cannot be parsed (`request.json()` throws, landing in the catch
block).  The random byte consumed by a fresh variant assignment is passed
in explicitly. -/
def POST (body : Option ReqBody) (fl : Faults) (db : Db)
    (randomByte : Nat) : ApiResponse × Db :=
  match body with
  | none =>
    (⟨500, false, none, some "Internal server error"⟩, db)
  | some bd =>
    if !optStrTruthy bd.user_id || !optStrTruthy bd.subscription_id then
      (⟨400, false, none, some "Missing user_id or subscription_id"⟩, db)
    else
      let u := bd.user_id.getD ""
      let sid := bd.subscription_id.getD ""
      if jTruthy bd.get_variant then
        let vd := getOrAssignVariant fl db u sid randomByte
        (⟨200, true, some vd.1, none⟩, vd.2)
      else if !isBoolJ bd.accepted_downsell then
        (⟨400, false, none, some "accepted_downsell must be boolean"⟩, db)
      else if jTruthy bd.reason && !isStrJ bd.reason then
        (⟨400, false, none, some "reason must be string"⟩, db)
      else
        let acc := boolOfJ bd.accepted_downsell
        let db2 := updateCancellations db u sid acc bd.reason
        let db3 := if acc then db2 else updateSubscriptionStatus db2 sid
        (⟨200, true, none, none⟩, db3)

/-- `iterAssign`: N sequential calls of `getOrAssignVariant` for the same
identity pair, threading the store and consuming one random byte per
call; returns the list of returned variants and the final store. -/
def iterAssign (fl : Faults) (u sid : String) :
    List Nat → Db → List String × Db
  | [], db => ([], db)
  | b :: bs, db =>
    let vd := getOrAssignVariant fl db u sid b
    let rest := iterAssign fl u sid bs vd.2
    (vd.1 :: rest.1, rest.2)

/-! ## Theorems -/

/-- The static back map of the specification, written as a state
transformer exactly as the spec words it: survey→job-question,
feedback→survey, congratulations→feedback, visa-support→congratulations,
visa-yes→visa-support, visa-no→visa-support,
retention-survey→retention-offer, retention-reason→retention-survey,
retention-price→retention-reason; moving back to visa-support clears
`hasLawyer`; every other step (job-question and retention-offer, which
have no back target, the reason-feedback steps, and the terminal steps)
is left unchanged. -/
def backSpecState (s : FlowState) : FlowState :=
  match s.step with
  | .survey => { s with step := .jobQuestion }
  | .feedback => { s with step := .survey }
  | .congratulations => { s with step := .feedback }
  | .visaSupport => { s with step := .congratulations }
  | .visaYes => { s with step := .visaSupport, hasLawyer := none }
  | .visaNo => { s with step := .visaSupport, hasLawyer := none }
  | .retentionSurvey => { s with step := .retentionOffer }
  | .retentionReason => { s with step := .retentionSurvey }
  | .retentionPrice => { s with step := .retentionReason }
  | _ => s

/-- C1: the back action follows exactly the static map of the spec at
every flow state — survey→job-question, feedback→survey,
congratulations→feedback, visa-support→congratulations,
visa-yes/visa-no→visa-support (clearing `hasLawyer`),
retention-survey→retention-offer, retention-reason→retention-survey,
retention-price→retention-reason; job-question and retention-offer have
no back target, and back at the reason-feedback and terminal steps
leaves the state unchanged.  No submission is dispatched. -/
theorem c1_back_navigation_follows_static_map (s : FlowState) :
    transition s .back = (backSpecState s, []) := by
  cases s with
  | mk st hj sd fb hl vt cs rd => cases st <;> rfl

/-- C4: at step `feedback` with feedback shorter than 25 characters, the
submit action is a no-op — the state is unchanged and no submission is
dispatched. -/
theorem c4_short_feedback_submit_noop (s : FlowState)
    (hstep : s.step = .feedback)
    (hlen : s.feedback.length < 25) :
    transition s .submitFeedback = (s, []) := by
  have hval : isFeedbackValid s = false := by
    simp [isFeedbackValid, MIN_FEEDBACK_LENGTH]
    omega
  simp [transition, hstep, hval]

/-- C4 witness: the concrete scenario of the spec,
`transition({step: feedback, feedback: "short"}, submit)` returns the
state unchanged. -/
theorem c4_short_feedback_submit_noop_witness :
    ({ initialState with step := .feedback, feedback := "short" }
        : FlowState).step = .feedback
      ∧ ({ initialState with step := .feedback, feedback := "short" }
        : FlowState).feedback.length < 25
      ∧ transition
          { initialState with step := .feedback, feedback := "short" }
          .submitFeedback
        = ({ initialState with step := .feedback, feedback := "short" }, []) :=
  ⟨rfl, by decide,
    c4_short_feedback_submit_noop _ rfl (by decide)⟩

/-- C5: from any of retention-offer, retention-survey, retention-reason,
retention-platform, retention-jobs, retention-move, retention-other, the
accept(true) action moves to `retention-accepted` and dispatches exactly
one submission with accepted=true and reason "Accepted retention offer";
accept(false) at retention-offer moves to `retention-survey` with no
submission. -/
theorem c5_accept_retention_offer (s : FlowState) :
    (s.step = .retentionOffer ∨ s.step = .retentionSurvey
        ∨ s.step = .retentionReason ∨ s.step = .retentionPlatform
        ∨ s.step = .retentionJobs ∨ s.step = .retentionMove
        ∨ s.step = .retentionOther →
      transition s (.accept true)
        = ({ s with step := .retentionAccepted, completedSteps := 0 },
           [⟨true, "Accepted retention offer"⟩]))
    ∧ (s.step = .retentionOffer →
      transition s (.accept false)
        = ({ s with step := .retentionSurvey, completedSteps := 1 }, [])) := by
  constructor
  · intro hstep
    cases s with
    | mk st hj sd fb hl vt cs rd =>
      simp only [FlowState.mk.injEq] at hstep ⊢
      rcases hstep with h | h | h | h | h | h | h <;> subst h <;> rfl
  · intro hstep
    cases s with
    | mk st hj sd fb hl vt cs rd =>
      simp only at hstep
      subst hstep
      rfl

/-- C5 witness: accept(true) at a concrete retention-reason state and
accept(false) at a concrete retention-offer state. -/
theorem c5_accept_retention_offer_witness :
    transition { initialState with step := .retentionReason } (.accept true)
      = ({ initialState with step := .retentionAccepted, completedSteps := 0 },
         [⟨true, "Accepted retention offer"⟩])
    ∧ transition { initialState with step := .retentionOffer } (.accept false)
      = ({ initialState with step := .retentionSurvey, completedSteps := 1 },
         []) :=
  ⟨(c5_accept_retention_offer { initialState with step := .retentionReason }).1
      (Or.inr (Or.inr (Or.inl rfl))),
   (c5_accept_retention_offer { initialState with step := .retentionOffer }).2
      rfl⟩

/-- C6: at step retention-reason, `handleRetentionReasonSubmit` routes by
the `cancellationReason` value — "Too expensive"→retention-price,
"Platform not helpful"→retention-platform, "Not enough relevant
jobs"→retention-jobs, "Decided not to move"→retention-move,
"Other"→retention-other, and an unset or unmatched value falls back to
retention-final. -/
theorem c6_reason_routing (s : FlowState) (_hstep : s.step = .retentionReason) :
    (s.retentionData.cancellationReason = some "Too expensive" →
      handleRetentionReasonSubmit s
        = { s with step := .retentionPrice, completedSteps := 3 })
    ∧ (s.retentionData.cancellationReason = some "Platform not helpful" →
      handleRetentionReasonSubmit s
        = { s with step := .retentionPlatform, completedSteps := 3 })
    ∧ (s.retentionData.cancellationReason = some "Not enough relevant jobs" →
      handleRetentionReasonSubmit s
        = { s with step := .retentionJobs, completedSteps := 3 })
    ∧ (s.retentionData.cancellationReason = some "Decided not to move" →
      handleRetentionReasonSubmit s
        = { s with step := .retentionMove, completedSteps := 3 })
    ∧ (s.retentionData.cancellationReason = some "Other" →
      handleRetentionReasonSubmit s
        = { s with step := .retentionOther, completedSteps := 3 })
    ∧ (s.retentionData.cancellationReason = none →
      handleRetentionReasonSubmit s
        = { s with step := .retentionFinal, completedSteps := 3 })
    ∧ (∀ r, s.retentionData.cancellationReason = some r →
        r ∉ (["Too expensive", "Platform not helpful",
              "Not enough relevant jobs", "Decided not to move",
              "Other"] : List String) →
      handleRetentionReasonSubmit s
        = { s with step := .retentionFinal, completedSteps := 3 }) := by
  refine ⟨?_, ?_, ?_, ?_, ?_, ?_, ?_⟩ <;>
    first
    | (intro h; simp [handleRetentionReasonSubmit, h, stepMapLookup])
    | (intro r h hnot
       simp only [List.mem_cons, List.not_mem_nil, or_false, not_or] at hnot
       obtain ⟨h1, h2, h3, h4, h5⟩ := hnot
       simp [handleRetentionReasonSubmit, h, stepMapLookup, h1, h2, h3, h4, h5])

/-- C6 witness: the fallback scenario of the spec — at retention-reason
with `cancellationReason` unset the routing lands on retention-final. -/
theorem c6_reason_routing_witness :
    ({ initialState with step := .retentionReason }
        : FlowState).retentionData.cancellationReason = none
      ∧ handleRetentionReasonSubmit { initialState with step := .retentionReason }
        = { initialState with step := .retentionFinal, completedSteps := 3 } :=
  ⟨rfl,
   (c6_reason_routing { initialState with step := .retentionReason }
      rfl).2.2.2.2.2.1 rfl⟩

/-- C7: at step visa-yes or visa-no with trimmed-non-empty `visaType`,
the submit action moves to `success` when `hasLawyer` is true and to
`success-alt` otherwise, dispatching exactly one submission with
accepted=false and reason "Completed visa support flow". -/
theorem c7_visa_details_submit (s : FlowState)
    (hstep : s.step = .visaYes ∨ s.step = .visaNo)
    (hvisa : jsTrim s.visaType ≠ "") :
    transition s .submitVisaDetails
      = ({ s with
           step := match s.hasLawyer with
             | some true => .success
             | _ => .successAlt },
         [⟨false, "Completed visa support flow"⟩]) := by
  have htrim : (jsTrim s.visaType != "") = true := by
    simpa using hvisa
  rcases hstep with h | h <;>
    simp [transition, h, htrim, handleVisaDetailsSubmit]

/-- C7 witness: a concrete visa-no state with `hasLawyer = false` and a
non-blank visa type lands on success-alt with the single submission. -/
theorem c7_visa_details_submit_witness :
    (({ initialState with
        step := .visaNo, hasLawyer := some false, visaType := "H-1B" }
        : FlowState).step = .visaYes
      ∨ ({ initialState with
          step := .visaNo, hasLawyer := some false, visaType := "H-1B" }
        : FlowState).step = .visaNo)
    ∧ jsTrim ({ initialState with
        step := .visaNo, hasLawyer := some false, visaType := "H-1B" }
        : FlowState).visaType ≠ ""
    ∧ transition
        { initialState with
          step := .visaNo, hasLawyer := some false, visaType := "H-1B" }
        .submitVisaDetails
      = ({ initialState with
           step := .successAlt, hasLawyer := some false, visaType := "H-1B" },
         [⟨false, "Completed visa support flow"⟩]) :=
  ⟨Or.inr rfl, by decide,
   c7_visa_details_submit _ (Or.inr rfl) (by decide)⟩

/-! ### Backend theorems -/

/-- Updating the `cancellations` table leaves the `subscriptions` table
untouched. -/
theorem updateCancellations_subscriptions (db : Db) (u sid : String)
    (acc : Bool) (rj : Option Json) :
    (updateCancellations db u sid acc rj).subscriptions = db.subscriptions := by
  unfold updateCancellations
  cases reasonUpdateOf rj <;> rfl

/-- Updating a subscription status leaves the `cancellations` table
untouched. -/
theorem updateSubscriptionStatus_cancellations (db : Db) (sid : String) :
    (updateSubscriptionStatus db sid).cancellations = db.cancellations := rfl

/-- C2 counterexample: with the insert failing and no existing record,
`getOrAssignVariant` still returns the locally generated variant ("A" for
an even random byte) and the store is left without any record — no error
reaches the caller, because the route never reads the supabase error
field and the function's result carries no error channel. -/
theorem c2_counterexample_silent_variant_after_failed_persist :
    getOrAssignVariant ⟨false, true⟩ ⟨[], []⟩ "user-1" "sub-1" 0
      = ("A", ⟨[], []⟩) := by decide

/-- C2 amended: when the lookup yields no truthy stored variant and the
insert fails, `getOrAssignVariant` silently returns the locally generated
parity-based variant with the store unchanged; persistence errors are
ignored, not propagated. -/
theorem c2_amended_errors_ignored (fl : Faults) (db : Db)
    (u sid : String) (b : Nat)
    (hins : fl.insertFails = true)
    (hlook : lookedUpVariant fl db u sid = none) :
    getOrAssignVariant fl db u sid b
      = ((if b % 2 == 0 then "A" else "B"), db) := by
  simp [getOrAssignVariant, hlook, hins]

/-- C2 amended witness: a concrete failed insert on an empty store. -/
theorem c2_amended_errors_ignored_witness :
    (⟨false, true⟩ : Faults).insertFails = true
      ∧ lookedUpVariant ⟨false, true⟩ ⟨[], []⟩ "user-1" "sub-1" = none
      ∧ getOrAssignVariant ⟨false, true⟩ ⟨[], []⟩ "user-1" "sub-1" 3
        = ("B", ⟨[], []⟩) :=
  ⟨rfl, rfl, c2_amended_errors_ignored ⟨false, true⟩ ⟨[], []⟩
    "user-1" "sub-1" 3 rfl rfl⟩

/-- C3: `getOrAssignVariant` is idempotent — when the store holds exactly
one record for the identity pair with a stored (non-empty) variant and
the lookup succeeds, every call returns that variant and leaves the
store unchanged, so N sequential calls all return the same variant. -/
theorem c3_idempotent (fl : Faults) (db : Db) (u sid v : String)
    (r : CancellationRecord)
    (hsel : fl.selectFails = false)
    (hfilter : db.cancellations.filter (matchRec u sid) = [r])
    (hvar : r.downsell_variant = some v)
    (hne : v ≠ "") :
    (∀ b, getOrAssignVariant fl db u sid b = (v, db))
      ∧ ∀ bs, iterAssign fl u sid bs db = (bs.map fun _ => v, db) := by
  have hone : ∀ b, getOrAssignVariant fl db u sid b = (v, db) := by
    intro b
    have hlook : lookedUpVariant fl db u sid = some v := by
      simp [lookedUpVariant, selectSingle, hsel, hfilter, hvar, hne]
    simp [getOrAssignVariant, hlook]
  refine ⟨hone, ?_⟩
  intro bs
  induction bs with
  | nil => rfl
  | cons b bs ih => simp [iterAssign, hone b, ih]

/-- C3 witness: three sequential calls against a store already holding
variant "B" for the pair all return "B" and leave the store unchanged. -/
theorem c3_idempotent_witness :
    (⟨false, false⟩ : Faults).selectFails = false
      ∧ (([⟨"user-1", "sub-1", some "B", none, none⟩]
            : List CancellationRecord).filter (matchRec "user-1" "sub-1")
        = [⟨"user-1", "sub-1", some "B", none, none⟩])
      ∧ iterAssign ⟨false, false⟩ "user-1" "sub-1" [0, 7, 4]
          ⟨[⟨"user-1", "sub-1", some "B", none, none⟩], []⟩
        = (["B", "B", "B"],
           ⟨[⟨"user-1", "sub-1", some "B", none, none⟩], []⟩) :=
  ⟨rfl, by decide,
   (c3_idempotent ⟨false, false⟩
      ⟨[⟨"user-1", "sub-1", some "B", none, none⟩], []⟩
      "user-1" "sub-1" "B" ⟨"user-1", "sub-1", some "B", none, none⟩
      rfl (by decide) rfl (by decide)).2 [0, 7, 4]⟩

/-- C8: the handler responds 400 with success=false exactly when the
parsed body is missing or has an empty user_id or subscription_id, or
(for a non-get_variant request) accepted_downsell is not a boolean, or
reason is present (truthy) and not a string; and every 400 rejection
leaves the store unchanged. -/
theorem c8_validation_rejections (bd : ReqBody) (fl : Faults) (db : Db)
    (b : Nat) :
    (((POST (some bd) fl db b).1.status = 400
        ∧ (POST (some bd) fl db b).1.success = false)
      ↔ (optStrTruthy bd.user_id = false
          ∨ optStrTruthy bd.subscription_id = false
          ∨ (jTruthy bd.get_variant = false
              ∧ (isBoolJ bd.accepted_downsell = false
                  ∨ (jTruthy bd.reason = true ∧ isStrJ bd.reason = false)))))
    ∧ ((POST (some bd) fl db b).1.status = 400
        → (POST (some bd) fl db b).2 = db) := by
  cases hu : optStrTruthy bd.user_id <;>
  cases hs : optStrTruthy bd.subscription_id <;>
  cases hg : jTruthy bd.get_variant <;>
  cases ha : isBoolJ bd.accepted_downsell <;>
  cases hr : jTruthy bd.reason <;>
  cases hrs : isStrJ bd.reason <;>
    simp [POST, hu, hs, hg, ha, hr, hrs]

/-- C8 witness: a body missing its subscription_id is rejected with 400
and the store is unchanged. -/
theorem c8_validation_rejections_witness :
    (POST (some ⟨some "user-1", none, none, none, none⟩) ⟨false, false⟩
        ⟨[], []⟩ 0).1.status = 400
      ∧ (POST (some ⟨some "user-1", none, none, none, none⟩) ⟨false, false⟩
          ⟨[], []⟩ 0).2 = ⟨[], []⟩ :=
  ⟨by decide,
   (c8_validation_rejections ⟨some "user-1", none, none, none, none⟩
      ⟨false, false⟩ ⟨[], []⟩ 0).2 (by decide)⟩

/-- C9: a valid submission request (non-empty string identity pair,
boolean accepted_downsell, reason absent or a string, get_variant falsy)
succeeds with 200: every matching cancellation record gets the new
`accepted_downsell` (and `reason`, when sent), and the subscription's
status is set to pending_cancellation exactly when accepted_downsell is
false, the subscriptions table being untouched when it is true. -/
theorem c9_submission_updates (bd : ReqBody) (fl : Faults) (db : Db)
    (b : Nat) (u sid : String) (a : Bool)
    (hu : bd.user_id = some u) (hune : u ≠ "")
    (hs : bd.subscription_id = some sid) (hsne : sid ≠ "")
    (hg : jTruthy bd.get_variant = false)
    (ha : bd.accepted_downsell = some (.jbool a))
    (hr : bd.reason = none ∨ ∃ rs, bd.reason = some (.jstr rs)) :
    (POST (some bd) fl db b).1.success = true
      ∧ (POST (some bd) fl db b).1.status = 200
      ∧ (bd.reason = none →
          (POST (some bd) fl db b).2.cancellations
            = db.cancellations.map fun r =>
                if matchRec u sid r then { r with accepted_downsell := some a }
                else r)
      ∧ (∀ rs, bd.reason = some (.jstr rs) →
          (POST (some bd) fl db b).2.cancellations
            = db.cancellations.map fun r =>
                if matchRec u sid r then
                  { r with accepted_downsell := some a, reason := some rs }
                else r)
      ∧ (a = true →
          (POST (some bd) fl db b).2.subscriptions = db.subscriptions)
      ∧ (a = false →
          (POST (some bd) fl db b).2.subscriptions
            = db.subscriptions.map fun sub =>
                if sub.id == sid then
                  { sub with status := "pending_cancellation" }
                else sub) := by
  have hu' : optStrTruthy bd.user_id = true := by
    simp [optStrTruthy, hu, hune]
  have hs' : optStrTruthy bd.subscription_id = true := by
    simp [optStrTruthy, hs, hsne]
  have ha' : isBoolJ bd.accepted_downsell = true := by simp [isBoolJ, ha]
  have hcheck : (jTruthy bd.reason && !isStrJ bd.reason) = false := by
    rcases hr with h | ⟨rs, h⟩ <;> simp [jTruthy, isStrJ, h]
  have hgetu : bd.user_id.getD "" = u := by simp [hu]
  have hgets : bd.subscription_id.getD "" = sid := by simp [hs]
  have hpost : POST (some bd) fl db b
      = (⟨200, true, none, none⟩,
         if a then updateCancellations db u sid a bd.reason
         else updateSubscriptionStatus
           (updateCancellations db u sid a bd.reason) sid) := by
    simp [POST, hu', hs', hg, ha', hcheck, hgetu, hgets, boolOfJ, isBoolJ, ha]
  have hcanc : (POST (some bd) fl db b).2.cancellations
      = (updateCancellations db u sid a bd.reason).cancellations := by
    rw [hpost]
    cases a <;> simp [updateSubscriptionStatus_cancellations]
  refine ⟨by rw [hpost], by rw [hpost], ?_, ?_, ?_, ?_⟩
  · intro h0
    rw [hcanc, h0]
    simp [updateCancellations, reasonUpdateOf, applyReasonUpdate]
  · intro rs hrs
    rw [hcanc, hrs]
    simp [updateCancellations, reasonUpdateOf, applyReasonUpdate]
  · intro hacc
    rw [hpost]
    subst hacc
    simp [updateCancellations_subscriptions]
  · intro hacc
    rw [hpost]
    subst hacc
    simp [updateSubscriptionStatus, updateCancellations_subscriptions]

/-- C9 witness: a concrete declined-downsell submission with a reason —
the cancellation row is updated and the subscription is marked
pending_cancellation. -/
theorem c9_submission_updates_witness :
    ("user-1" : String) ≠ "" ∧ ("sub-1" : String) ≠ ""
      ∧ (POST (some ⟨some "user-1", some "sub-1", none,
            some (.jbool false), some (.jstr "bye")⟩) ⟨false, false⟩
          ⟨[⟨"user-1", "sub-1", some "A", none, none⟩],
           [⟨"sub-1", "active"⟩]⟩ 0).1.success = true
      ∧ (POST (some ⟨some "user-1", some "sub-1", none,
            some (.jbool false), some (.jstr "bye")⟩) ⟨false, false⟩
          ⟨[⟨"user-1", "sub-1", some "A", none, none⟩],
           [⟨"sub-1", "active"⟩]⟩ 0).2.subscriptions
        = [⟨"sub-1", "pending_cancellation"⟩] :=
  ⟨by decide, by decide,
   (c9_submission_updates
      ⟨some "user-1", some "sub-1", none, some (.jbool false),
       some (.jstr "bye")⟩ ⟨false, false⟩
      ⟨[⟨"user-1", "sub-1", some "A", none, none⟩], [⟨"sub-1", "active"⟩]⟩
      0 "user-1" "sub-1" false rfl (by decide) rfl (by decide) rfl rfl
      (Or.inr ⟨"bye", rfl⟩)).1,
   (c9_submission_updates
      ⟨some "user-1", some "sub-1", none, some (.jbool false),
       some (.jstr "bye")⟩ ⟨false, false⟩
      ⟨[⟨"user-1", "sub-1", some "A", none, none⟩], [⟨"sub-1", "active"⟩]⟩
      0 "user-1" "sub-1" false rfl (by decide) rfl (by decide) rfl rfl
      (Or.inr ⟨"bye", rfl⟩)).2.2.2.2.2 rfl⟩

/-- C10: a request with truthy get_variant and a non-empty identity pair
takes the variant branch regardless of the accepted_downsell and reason
fields also present: the response carries only the variant with
success=true, the subscriptions table is untouched, and the
cancellations table is at most extended with the one freshly assigned
record — no existing record is updated. -/
theorem c10_get_variant_priority (bd : ReqBody) (fl : Faults) (db : Db)
    (b : Nat) (u sid : String)
    (hu : bd.user_id = some u) (hune : u ≠ "")
    (hs : bd.subscription_id = some sid) (hsne : sid ≠ "")
    (hg : jTruthy bd.get_variant = true) :
    (POST (some bd) fl db b).1
        = ⟨200, true, some (getOrAssignVariant fl db u sid b).1, none⟩
      ∧ (POST (some bd) fl db b).2.subscriptions = db.subscriptions
      ∧ ((POST (some bd) fl db b).2.cancellations = db.cancellations
          ∨ (POST (some bd) fl db b).2.cancellations
            = db.cancellations
              ++ [⟨u, sid, some (if b % 2 == 0 then "A" else "B"),
                   none, none⟩]) := by
  have hu' : optStrTruthy bd.user_id = true := by
    simp [optStrTruthy, hu, hune]
  have hs' : optStrTruthy bd.subscription_id = true := by
    simp [optStrTruthy, hs, hsne]
  have hgetu : bd.user_id.getD "" = u := by simp [hu]
  have hgets : bd.subscription_id.getD "" = sid := by simp [hs]
  have hpost : POST (some bd) fl db b
      = (⟨200, true, some (getOrAssignVariant fl db u sid b).1, none⟩,
         (getOrAssignVariant fl db u sid b).2) := by
    simp [POST, hu', hs', hg, hgetu, hgets]
  have hforms : (getOrAssignVariant fl db u sid b).2 = db
      ∨ (getOrAssignVariant fl db u sid b).2
        = { db with
            cancellations := db.cancellations
              ++ [⟨u, sid, some (if b % 2 == 0 then "A" else "B"),
                   none, none⟩] } := by
    unfold getOrAssignVariant
    cases lookedUpVariant fl db u sid with
    | some v => exact Or.inl rfl
    | none =>
      cases hins : fl.insertFails with
      | true => simp [hins]
      | false => simp [hins]
  refine ⟨by rw [hpost], ?_, ?_⟩
  · rw [hpost]
    rcases hforms with h | h <;> rw [h]
  · rw [hpost]
    rcases hforms with h | h <;> rw [h]
    · exact Or.inl rfl
    · exact Or.inr rfl

/-- C10 witness: a get_variant request that also carries
accepted_downsell=false and a reason — the subscription stays active,
the variant is assigned, and no submission-path update happens. -/
theorem c10_get_variant_priority_witness :
    ("user-1" : String) ≠ "" ∧ ("sub-1" : String) ≠ ""
      ∧ jTruthy (some (.jbool true)) = true
      ∧ (POST (some ⟨some "user-1", some "sub-1", some (.jbool true),
            some (.jbool false), some (.jstr "bye")⟩) ⟨false, false⟩
          ⟨[], [⟨"sub-1", "active"⟩]⟩ 0).1
        = ⟨200, true, some "A", none⟩
      ∧ (POST (some ⟨some "user-1", some "sub-1", some (.jbool true),
            some (.jbool false), some (.jstr "bye")⟩) ⟨false, false⟩
          ⟨[], [⟨"sub-1", "active"⟩]⟩ 0).2.subscriptions
        = [⟨"sub-1", "active"⟩] :=
  ⟨by decide, by decide, rfl,
   (c10_get_variant_priority
      ⟨some "user-1", some "sub-1", some (.jbool true),
       some (.jbool false), some (.jstr "bye")⟩ ⟨false, false⟩
      ⟨[], [⟨"sub-1", "active"⟩]⟩ 0 "user-1" "sub-1"
      rfl (by decide) rfl (by decide) rfl).1,
   (c10_get_variant_priority
      ⟨some "user-1", some "sub-1", some (.jbool true),
       some (.jbool false), some (.jstr "bye")⟩ ⟨false, false⟩
      ⟨[], [⟨"sub-1", "active"⟩]⟩ 0 "user-1" "sub-1"
      rfl (by decide) rfl (by decide) rfl).2.1⟩

end CancelFlow
